import Mathlib

/-
  Verification development for the MGRS grid generation and caching engine.

  The definitions below are shallow embeddings of the TypeScript sources:
  - generateGZD.ts            (zone boundary generator)
  - generate100kmSquares.ts   (100 km square generator)
  - generate10kmGrid.ts       (10 km cell generator)
  - WorkerPool.ts             (concurrent dispatcher)
  - mgrs.worker.ts            (execution context message protocol)
  - viewportManager.ts        (hierarchical cache viewport controller)
  - mgrsStore.ts              (cache store)

  External libraries (proj4 projections, the JSTS geometry engine and the
  mgrs reference encoder) are not part of the repository; the generators are
  therefore parameterized by a GeoEngine record of those primitives, and the
  embedded control flow around them is taken verbatim from the sources.
-/

namespace MGRSGrid

attribute [local semireducible] Rat.mul Rat.inv Rat.add Rat.sub

/-! ## Zone boundary generator (generateGZD.ts) -/

/-- GZD feature as produced by generateGZD.ts: properties gzd, zone, band and
a closed polygon ring of integer degree coordinates (all ring coordinates in
the source are integers). -/
structure GZDFeature where
  gzd : String
  zone : Nat
  band : Char
  ring : List (Int × Int)
deriving DecidableEq

/-- The latitude band letters C..X omitting I and O (generateGZD.ts line 26). -/
def latitudeBands : List Char :=
  ['C', 'D', 'E', 'F', 'G', 'H', 'J', 'K', 'L', 'M',
   'N', 'P', 'Q', 'R', 'S', 'T', 'U', 'V', 'W', 'X']

/-- Rectangle ring helper matching the coordinate layout used throughout
generateGZD.ts: [[w,s],[e,s],[e,n],[w,n],[w,s]]. -/
def rectRing (w s e n : Int) : List (Int × Int) :=
  [(w, s), (e, s), (e, n), (w, n), (w, s)]

/-- Features contributed by a single (zone, band index) pair, following the
control flow of generateGZDGeoJSON (generateGZD.ts lines 32 to 147):
Norway exception for band V (31V widened to 9 east, 32V suppressed), Svalbard
exceptions for band X (31X, 32X, 34X, 36X suppressed; 33X, 35X, 37X each
widened to a 12 degree span), standard 6 by 8 rectangles otherwise. -/
def gzdFeaturesFor (zone : Nat) (i : Nat) (band : Char) : List GZDFeature :=
  let west : Int := ((zone : Int) - 1) * 6 - 180
  let east : Int := (zone : Int) * 6 - 180
  let south : Int := -80 + (i : Int) * 8
  let north : Int := if band = 'X' then 84 else south + 8
  if south < -80 ∨ north > 84 then []
  else if band = 'V' ∧ zone = 31 then
    [{ gzd := "31V", zone := 31, band := 'V', ring := rectRing 0 south 9 north }]
  else if band = 'V' ∧ zone = 32 then []
  else if band = 'X' ∧ (zone = 31 ∨ zone = 32) then []
  else if band = 'X' ∧ zone = 33 then
    [{ gzd := "33X", zone := 33, band := 'X', ring := rectRing 0 south 12 north }]
  else if band = 'X' ∧ zone = 34 then []
  else if band = 'X' ∧ zone = 35 then
    [{ gzd := "35X", zone := 35, band := 'X', ring := rectRing 12 south 24 north }]
  else if band = 'X' ∧ zone = 36 then []
  else if band = 'X' ∧ zone = 37 then
    [{ gzd := "37X", zone := 37, band := 'X', ring := rectRing 24 south 36 north }]
  else
    [{ gzd := toString zone ++ String.singleton band, zone := zone, band := band,
       ring := rectRing west south east north }]

/-- The full feature list of generateGZDGeoJSON: zones 1..60 outer loop,
latitude bands inner loop, in source order. -/
def generateGZDGeoJSON : List GZDFeature :=
  (List.range 60).flatMap fun z0 =>
    (latitudeBands.enum).flatMap fun ib =>
      gzdFeaturesFor (z0 + 1) ib.1 ib.2

/-- Longitude span of a GZD feature ring, read off the first two ring points
(west then east corner in the layout used by the source). -/
def featWidth (f : GZDFeature) : Int :=
  match f.ring with
  | p0 :: p1 :: _ => p1.1 - p0.1
  | _ => 0

/-! ## Square and cell generators (generate100kmSquares.ts, generate10kmGrid.ts) -/

/-- Geodetic point: (longitude, latitude) in degrees, as exact rationals. -/
abbrev Pt : Type := ℚ × ℚ

/-- Hemisphere tag. -/
inductive Hemi
  | N
  | S
deriving DecidableEq

/-- getGZDHemisphere (generate100kmSquares.ts lines 54 to 56): bands from N on
are northern. -/
def getGZDHemisphere (band : Char) : Hemi :=
  if band ≥ 'N' then Hemi.N else Hemi.S

/-- Abstract interface to the external libraries the generators call: proj4
conversions, JSTS geometry construction, intersection and buffering, and the
mgrs reference encoder. A result of none models a thrown exception (or, for
intersect, a JSTS TopologyException), which the TypeScript sources catch. -/
structure GeoEngine (G : Type) where
  latLonToUTM : Nat → Hemi → Pt → Option (ℚ × ℚ)
  utmToLatLon : Nat → Hemi → ℚ → ℚ → Option Pt
  mkPolygon : List Pt → Option G
  intersect : G → G → Option G
  buffer : G → ℚ → Option G
  isEmpty : G → Bool
  area : G → ℚ
  pieces : G → List (List Pt)
  mgrsForward : Pt → Nat → Option String

/-- The minimum intersection area threshold 1e-8 used by both generators. -/
def epsArea : ℚ := 1 / 100000000

/-- utmRectToWGS84Polygon (generate100kmSquares.ts lines 62 to 102 and
generate10kmGrid.ts lines 48 to 83): sample the four edges of a UTM square,
project each sample to geodetic space, and close the ring with the first
point. A failing projection propagates to the per-cell catch, modelled by
none. -/
def utmRectToWGS84Polygon {G : Type} (eng : GeoEngine G) (zone : Nat) (hemi : Hemi)
    (eMin nMin size : ℚ) (samples : Nat) : Option (List Pt) :=
  let eMax := eMin + size
  let nMax := nMin + size
  let bottom := (List.range samples).map fun i => (eMin + (eMax - eMin) * ((i : ℚ) / (samples : ℚ)), nMin)
  let right := (List.range samples).map fun i => (eMax, nMin + (nMax - nMin) * ((i : ℚ) / (samples : ℚ)))
  let top := (List.range samples).map fun i => (eMax - (eMax - eMin) * ((i : ℚ) / (samples : ℚ)), nMax)
  let left := (List.range samples).map fun i => (eMin, nMax - (nMax - nMin) * ((i : ℚ) / (samples : ℚ)))
  match (bottom ++ right ++ top ++ left).mapM (fun p => eng.utmToLatLon zone hemi p.1 p.2) with
  | none => none
  | some pts => some (pts ++ [pts.headD (0, 0)])

/-- The discard test used by both generators: the intersection is empty or
its area is below the 1e-8 threshold. -/
def belowThreshold {G : Type} (eng : GeoEngine G) (g : G) : Bool :=
  eng.isEmpty g || eng.area g < epsArea

/-- Per-cell clipping of the 100 km pass (generate100kmSquares.ts lines 201
to 212): one raw intersection attempt; a topology exception discards the
cell with no repair, and an empty or below-threshold result is discarded. -/
def cellOutcome100 {G : Type} (eng : GeoEngine G) (parent cell : G) : Option G :=
  match eng.intersect parent cell with
  | none => none
  | some i => if belowThreshold eng i then none else some i

/-- Intersection attempt of the 10 km pass (generate10kmGrid.ts lines 181 to
194): raw attempt, then on a topology exception both operands are repaired by
zero-distance buffering and the intersection retried once; a failure anywhere
in the retry discards the cell. -/
def clip10 {G : Type} (eng : GeoEngine G) (parent cell : G) : Option G :=
  match eng.intersect parent cell with
  | some i => some i
  | none =>
    match eng.buffer parent 0, eng.buffer cell 0 with
    | some rp, some rc => eng.intersect rp rc
    | _, _ => none

/-- The empty-intersection fallback of the 10 km pass (generate10kmGrid.ts
lines 196 to 209): when the intersection is empty or below the area
threshold, replace it by the intersection of the original cell against the
parent buffered outward by 0.0001, keeping the earlier result when the
fallback itself throws; otherwise keep the intersection unchanged. -/
def fallback10 {G : Type} (eng : GeoEngine G) (parent cell i0 : G) : G :=
  if belowThreshold eng i0 then
    match eng.buffer parent (1 / 10000) with
    | none => i0
    | some larger =>
      match eng.intersect larger cell with
      | none => i0
      | some j => j
  else i0

/-- Per-cell clipping of the 10 km pass (generate10kmGrid.ts lines 181 to
213): the clip10 attempt, then the fallback10 step, discarding only when the
resulting geometry is still empty or below the threshold. -/
def cellOutcome10 {G : Type} (eng : GeoEngine G) (parent cell : G) : Option G :=
  match clip10 eng parent cell with
  | none => none
  | some i0 =>
    if belowThreshold eng (fallback10 eng parent cell i0) then none
    else some (fallback10 eng parent cell i0)

/-- Modelled from the spec: the per-cell clipping policy of sections 4.3 step
4 and 4.4, repair-retry-once-then-discard, phrased over the same engine
primitives. The raw intersection is attempted; on failure both operands are
repaired by zero-distance buffering and the intersection retried exactly
once; the cell is discarded when the attempt fails or the resulting
intersection is empty or below the area threshold, with no other fallback. -/
def cellOutcomeSpec {G : Type} (eng : GeoEngine G) (parent cell : G) : Option G :=
  let attempt :=
    match eng.intersect parent cell with
    | some i => some i
    | none =>
      match eng.buffer parent 0, eng.buffer cell 0 with
      | some rp, some rc => eng.intersect rp rc
      | _, _ => none
  match attempt with
  | none => none
  | some i => if belowThreshold eng i then none else some i

/-- Cell label of the 100 km pass (generate100kmSquares.ts lines 214 to 231):
project the UTM center of the cell back to geodetic space and encode it with
the mgrs encoder at accuracy 0; the resulting string is used verbatim as the
feature id. -/
def cellLabel100 {G : Type} (eng : GeoEngine G) (zone : Nat) (hemi : Hemi)
    (e n : ℚ) : Option String :=
  (eng.utmToLatLon zone hemi (e + 50000) (n + 50000)).bind fun center =>
    eng.mgrsForward center 0

/-- Zero-padding normalization of the 10 km pass (generate10kmGrid.ts lines
224 to 228): when the encoded string starts with a single digit followed by
an uppercase band letter, a 0 is prepended. -/
def padZone (s : String) : String :=
  match s.data with
  | c1 :: c2 :: _ =>
    if c1.isDigit ∧ ('A' ≤ c2 ∧ c2 ≤ 'Z') then "0" ++ s else s
  | _ => s

/-- Raw cell label of the 10 km pass before normalization (generate10kmGrid.ts
lines 215 to 223): the mgrs encoding of the projected UTM cell center at
accuracy 1. -/
def cellLabel10Raw {G : Type} (eng : GeoEngine G) (zone : Nat) (hemi : Hemi)
    (e n : ℚ) : Option String :=
  (eng.utmToLatLon zone hemi (e + 5000) (n + 5000)).bind fun center =>
    eng.mgrsForward center 1

/-- Cell label of the 10 km pass: the raw label normalized with padZone. -/
def cellLabel10 {G : Type} (eng : GeoEngine G) (zone : Nat) (hemi : Hemi)
    (e n : ℚ) : Option String :=
  (cellLabel10Raw eng zone hemi e n).map padZone

/-- Output feature of either generator: the full grid reference id, the
parent reference, and one clipped ring. -/
structure Feature (G : Type) where
  id : String
  parent : String
  ring : List Pt
deriving DecidableEq

/-- Emission step shared by both generators (generate100kmSquares.ts lines 233
to 249, generate10kmGrid.ts lines 243 to 258): given the clipped geometry and
label, emit one feature per polygonal piece, each carrying the same id. -/
def featuresOfCell {G : Type} (eng : GeoEngine G) (outcome : Option G)
    (label : Option String) (parentRef : String) : List (Feature G) :=
  match outcome, label with
  | some i, some s => (eng.pieces i).map fun r => { id := s, parent := parentRef, ring := r }
  | _, _ => []

/-- Per-cell processing of the 100 km pass (generate100kmSquares.ts lines 187
to 254): sample and project the cell ring, build the cell geometry, clip
against the GZD geometry, label from the projected cell center, and emit one
feature per piece. Each failure discards only this cell. -/
def processCell100 {G : Type} (eng : GeoEngine G) (zone : Nat) (hemi : Hemi)
    (gzdGeom : G) (gzdName : String) (e n : ℚ) : List (Feature G) :=
  match utmRectToWGS84Polygon eng zone hemi e n 100000 20 with
  | none => []
  | some ring =>
    match eng.mkPolygon ring with
    | none => []
    | some cellGeom =>
      featuresOfCell eng (cellOutcome100 eng gzdGeom cellGeom)
        (cellLabel100 eng zone hemi e n) gzdName

/-- Per-cell processing of the 10 km pass (generate10kmGrid.ts lines 168 to
262), mirroring processCell100 with the 10 km clip, 10 samples per edge and
the accuracy 1 label. -/
def processCell10 {G : Type} (eng : GeoEngine G) (zone : Nat) (hemi : Hemi)
    (squareGeom : G) (gzdRef : String) (e n : ℚ) : List (Feature G) :=
  match utmRectToWGS84Polygon eng zone hemi e n 10000 10 with
  | none => []
  | some ring =>
    match eng.mkPolygon ring with
    | none => []
    | some cellGeom =>
      featuresOfCell eng (cellOutcome10 eng squareGeom cellGeom)
        (cellLabel10 eng zone hemi e n) gzdRef

/-- Projected bounding box of a list of projected vertices; none when no
vertex projected successfully, mirroring the isFinite check of the sources. -/
structure BBox where
  minE : ℚ
  maxE : ℚ
  minN : ℚ
  maxN : ℚ

/-- Fold computing the projected bounding box (generate100kmSquares.ts lines
160 to 177, generate10kmGrid.ts lines 137 to 154). -/
def utmBBox (ps : List (ℚ × ℚ)) : Option BBox :=
  match ps with
  | [] => none
  | p :: rest =>
    some (rest.foldl
      (fun b q => { minE := min b.minE q.1, maxE := max b.maxE q.1,
                    minN := min b.minN q.2, maxN := max b.maxN q.2 })
      { minE := p.1, maxE := p.1, minN := p.2, maxN := p.2 })

/-- Integer range [a, b) as a list. -/
def intRange (a b : Int) : List Int :=
  (List.range (b - a).toNat).map fun k => a + Nat.cast k

/-- Grid-aligned cell indices of the snapped bounding rectangle, outer loop
over eastings, inner loop over northings, as in both generators. -/
def gridCells (aE bE aN bN : Int) : List (Int × Int) :=
  (intRange aE bE).flatMap fun i => (intRange aN bN).map fun j => (i, j)

/-- Southwest corner of a cell in meters, for a grid of size gs. -/
def cellOrigin (gs : Int) (c : Int × Int) : ℚ × ℚ :=
  (((c.1 * gs : Int) : ℚ), ((c.2 * gs : Int) : ℚ))

/-- Candidate cells of the 100 km pass for a GZD boundary: project the
boundary vertices (skipping failures), snap the bounding box outward to
100 km multiples, and enumerate the grid cells (generate100kmSquares.ts
lines 160 to 188). -/
def cellGrid100 {G : Type} (eng : GeoEngine G) (zone : Nat) (hemi : Hemi)
    (coords : List (List Pt)) : List (Int × Int) :=
  match utmBBox ((coords.headD []).filterMap (eng.latLonToUTM zone hemi)) with
  | none => []
  | some bb =>
    gridCells ((bb.minE / 100000).floor) ((bb.maxE / 100000).ceil)
      ((bb.minN / 100000).floor) ((bb.maxN / 100000).ceil)

/-- Candidate cells of the 10 km pass, identical with a 10 km grid size
(generate10kmGrid.ts lines 137 to 169). -/
def cellGrid10 {G : Type} (eng : GeoEngine G) (zone : Nat) (hemi : Hemi)
    (coords : List (List Pt)) : List (Int × Int) :=
  match utmBBox ((coords.headD []).filterMap (eng.latLonToUTM zone hemi)) with
  | none => []
  | some bb =>
    gridCells ((bb.minE / 10000).floor) ((bb.maxE / 10000).ceil)
      ((bb.minN / 10000).floor) ((bb.maxN / 10000).ceil)

/-- generate100kmSquaresForGZD (generate100kmSquares.ts lines 141 to 258):
build the GZD geometry (failure yields no features), then process every
candidate cell of the snapped bounding rectangle in loop order. The GZD name
is the unpadded zone number followed by the band letter. -/
def generate100kmSquaresForGZD {G : Type} (eng : GeoEngine G) (zone : Nat)
    (band : String) (hemi : Hemi) (coords : List (List Pt)) : List (Feature G) :=
  let gzdName := toString zone ++ band
  match eng.mkPolygon (coords.headD []) with
  | none => []
  | some gzdGeom =>
    (cellGrid100 eng zone hemi coords).flatMap fun c =>
      processCell100 eng zone hemi gzdGeom gzdName
        (cellOrigin 100000 c).1 (cellOrigin 100000 c).2

/-- Trailing 100 km square letter removal (generate10kmGrid.ts line 126): the
parent id with its final two uppercase letters removed when present. -/
def stripSquareLetters (s : String) : String :=
  match s.data.reverse with
  | c1 :: c2 :: rest =>
    if ('A' ≤ c1 ∧ c1 ≤ 'Z') ∧ ('A' ≤ c2 ∧ c2 ≤ 'Z') then
      String.mk rest.reverse
    else s
  | _ => s

/-- generate10kmGridForSquare (generate10kmGrid.ts lines 119 to 275): build
the 100 km square geometry, then process every candidate 10 km cell of the
snapped bounding rectangle in loop order. -/
def generate10kmGridForSquare {G : Type} (eng : GeoEngine G) (zone : Nat)
    (hemi : Hemi) (coords : List (List Pt)) (parentId : String) : List (Feature G) :=
  let gzdRef := stripSquareLetters parentId
  match eng.mkPolygon (coords.headD []) with
  | none => []
  | some squareGeom =>
    (cellGrid10 eng zone hemi coords).flatMap fun c =>
      processCell10 eng zone hemi squareGeom gzdRef
        (cellOrigin 10000 c).1 (cellOrigin 10000 c).2

/-! ## Concurrent dispatcher (WorkerPool.ts) and worker protocol (mgrs.worker.ts) -/

/-- Association list lookup keyed by strings, modelling a JS Map get. -/
def alLookup {β : Type} (l : List (String × β)) (k : String) : Option β :=
  (l.find? (fun p => p.1 == k)).map (fun p => p.2)

/-- Association list removal of every entry for a key, modelling Map delete. -/
def alErase {β : Type} (l : List (String × β)) (k : String) : List (String × β) :=
  l.filter (fun p => !(p.1 == k))

/-- Association list update, modelling Map set. -/
def alInsert {β : Type} (l : List (String × β)) (k : String) (v : β) : List (String × β) :=
  (k, v) :: alErase l k

/-- Dispatcher state (WorkerPool.ts lines 12 to 17): the pending callback maps
for 100 km results, 10 km results and 10 km errors, with callbacks modelled as
opaque numeric handles, plus a count of messages posted to workers. -/
structure PoolState where
  cb100 : List (String × Nat)
  cb10 : List (String × Nat)
  errCb10 : List (String × Nat)
  posted : Nat
deriving DecidableEq

/-- Messages a worker posts back to the pool (mgrs.worker.ts lines 296 to
346): tagged 100 km and 10 km results, a 10 km error tagged with its key, and
the untagged error message used for tile and 100 km generation failures. -/
inductive PoolMsg
  | gen100Result (gzd : String)
  | gen10Result (squareId : String)
  | gen10Error (squareId : String) (error : String)
  | workerError (error : String)
deriving DecidableEq

/-- Observable callback invocations performed by the pool message handler. -/
inductive Invocation
  | invoke100 (cb : Nat)
  | invoke10 (cb : Nat)
  | invokeErr (cb : Nat) (error : String)
deriving DecidableEq

/-- The message the worker posts when processGenerate100km throws
(mgrs.worker.ts lines 314 to 319): a bare error message carrying no key. -/
def workerFailure100 (error : String) : PoolMsg :=
  PoolMsg.workerError error

/-- The message the worker posts when generate10kmGridForSquare throws
(mgrs.worker.ts lines 336 to 344): a 10 km error tagged with the square id. -/
def workerFailure10 (squareId error : String) : PoolMsg :=
  PoolMsg.gen10Error squareId error

/-- The pool onmessage handler (WorkerPool.ts lines 26 to 60): a tagged
100 km or 10 km result invokes and removes the matching callback when present;
a 10 km error invokes the optional error callback and removes both entries
for the key; every other message type falls through all branches and is
ignored. Returns the new state and the invocations performed. -/
def handleMessage (s : PoolState) : PoolMsg → PoolState × List Invocation
  | PoolMsg.gen100Result gzd =>
    match alLookup s.cb100 gzd with
    | some cb => ({ s with cb100 := alErase s.cb100 gzd }, [Invocation.invoke100 cb])
    | none => (s, [])
  | PoolMsg.gen10Result k =>
    match alLookup s.cb10 k with
    | some cb => ({ s with cb10 := alErase s.cb10 k }, [Invocation.invoke10 cb])
    | none => (s, [])
  | PoolMsg.gen10Error k err =>
    ({ s with cb10 := alErase s.cb10 k, errCb10 := alErase s.errCb10 k },
     match alLookup s.errCb10 k with
     | some cb => [Invocation.invokeErr cb err]
     | none => [])
  | PoolMsg.workerError _ => (s, [])

/-- requestGenerate100km (WorkerPool.ts lines 72 to 76): store the callback
under the gzd key, replacing any existing one, and post the request to the
next worker. There is no error callback parameter. -/
def requestGenerate100km (s : PoolState) (gzd : String) (cb : Nat) : PoolState :=
  { s with cb100 := alInsert s.cb100 gzd cb, posted := s.posted + 1 }

/-- requestGenerate10km (WorkerPool.ts lines 78 to 89): store the callback
and the optional error callback under the square id and post the request. -/
def requestGenerate10km (s : PoolState) (squareId : String) (cb : Nat)
    (onError : Option Nat) : PoolState :=
  { s with
    cb10 := alInsert s.cb10 squareId cb,
    errCb10 := match onError with
      | some ec => alInsert s.errCb10 squareId ec
      | none => s.errCb10,
    posted := s.posted + 1 }

/-! ## Viewport controller (viewportManager.ts) and store (mgrsStore.ts) -/

/-- Controller pending-state (viewportManager.ts lines 15 and 16). -/
structure MgrState where
  pendingGZDs : List String
  pending100kmSquares : List String
deriving DecidableEq

/-- clearPending (viewportManager.ts lines 212 to 215): empty both pending
sets. -/
def clearPending (_m : MgrState) : MgrState :=
  { pendingGZDs := [], pending100kmSquares := [] }

/-- The 10 km dispatch error callback registered by the controller
(viewportManager.ts lines 169 to 172): remove the pending mark for the key. -/
def onError10 (m : MgrState) (squareId : String) : MgrState :=
  { m with pending100kmSquares := m.pending100kmSquares.filter (fun k => k ≠ squareId) }

/-- The result callbacks registered by the controller (viewportManager.ts
lines 73 to 79 and 162 to 168): store the features and remove the pending
mark for the key; modelled here for the pending sets. -/
def onResult100 (m : MgrState) (gzd : String) : MgrState :=
  { m with pendingGZDs := m.pendingGZDs.filter (fun k => k ≠ gzd) }

/-- Per-key decision of update100kmSquares (viewportManager.ts lines 49 to
80): a cached key is only surfaced; an uncached key not yet pending is marked
pending and dispatched; a pending key is skipped. Returns the new pending set
and whether a dispatch happened. -/
def step100 (cached : Bool) (pending : List String) (k : String) :
    List String × Bool :=
  if cached then (pending, false)
  else if k ∈ pending then (pending, false)
  else (k :: pending, true)

/-- The id format guard of update10kmGrids (viewportManager.ts line 145): the
key must start with two digits followed by an uppercase letter. -/
def matches2DigitZone (s : String) : Bool :=
  match s.data with
  | c1 :: c2 :: c3 :: _ => c1.isDigit && c2.isDigit && ('A' ≤ c3 && c3 ≤ 'Z')
  | _ => false

/-- Per-key decision of update10kmGrids (viewportManager.ts lines 133 to
174): a cached key is surfaced; an uncached key not yet pending is marked
pending, then dispatched only when its id passes the format guard (a
malformed id is logged and skipped while keeping the pending mark). -/
def step10 (cached : Bool) (pending : List String) (k : String) :
    List String × Bool :=
  if cached then (pending, false)
  else if k ∈ pending then (pending, false)
  else if matches2DigitZone k then (k :: pending, true)
  else (k :: pending, false)

/-- Dispatch count for a key over n rapid 100 km viewport passes during which
the key stays unresolved (no result arrives between passes). -/
def passes100 (k : String) : Nat → List String → Nat
  | 0, _ => 0
  | n + 1, p =>
    let r := step100 false p k
    (if r.2 then 1 else 0) + passes100 k n r.1

/-- Dispatch count for a key over n rapid 10 km viewport passes during which
the key stays unresolved. -/
def passes10 (k : String) : Nat → List String → Nat
  | 0, _ => 0
  | n + 1, p =>
    let r := step10 false p k
    (if r.2 then 1 else 0) + passes10 k n r.1

/-- The zoom gating of onViewportChange (viewportManager.ts lines 184 to
195): zoom defaults to 0 when absent; the 100 km update runs at zoom at least
5 and the 10 km update at zoom at least 8. Returns (run100km, run10km). -/
def onViewportChangeRuns (zoom : Option ℚ) : Bool × Bool :=
  let z := zoom.getD 0
  (decide (5 ≤ z), decide (8 ≤ z))

/-- Store state (mgrsStore.ts): the GZD data, both feature caches keyed by
zone name and square id, the surfaced visible lists and the viewport bounds.
Feature collections are abstracted by a type parameter. -/
structure StoreState (α : Type) where
  gzdData : Option α
  squares100km : List (String × α)
  grids10km : List (String × α)
  visible100kmSquares : List α
  visible10kmGrids : List α
  viewportBounds : Option (ℚ × ℚ × ℚ × ℚ)

/-- getSquares100km (mgrsStore.ts lines 63 to 65). -/
def getSquares100km {α : Type} (s : StoreState α) (gzd : String) : Option α :=
  alLookup s.squares100km gzd

/-- getGrids10km (mgrsStore.ts lines 76 to 78). -/
def getGrids10km {α : Type} (s : StoreState α) (squareId : String) : Option α :=
  alLookup s.grids10km squareId

/-- clearAll (mgrsStore.ts lines 93 to 99 of the grids10km revision, lines 80
to 85 of the flat revision): empty both feature caches and the visible lists
and reset the viewport bounds; the GZD data is left in place. -/
def clearAll {α : Type} (s : StoreState α) : StoreState α :=
  { s with
    squares100km := [],
    grids10km := [],
    visible100kmSquares := [],
    visible10kmGrids := [],
    viewportBounds := none }

/-! ## Concrete engine instantiations for evaluation

The generators take the external geometry and encoding libraries as a
GeoEngine argument; the following small instantiations over natural number
geometry handles exercise specific behaviors of those libraries at concrete
inputs. -/

/-- Engine whose encoder follows the documented output format of the external
mgrs package: grid references start with the unpadded zone number, so
zone 5 yields the string 5QKB (the repository itself documents this in the
10 km normalization comment, the 5Q to 05Q example, and the worker debug
checks). Geometry operations always succeed with a one-piece result. -/
def engPad : GeoEngine Nat where
  latLonToUTM := fun _ _ p => some p
  utmToLatLon := fun _ _ e n => some (e, n)
  mkPolygon := fun _ => some 0
  intersect := fun _ _ => some 1
  buffer := fun g _ => some g
  isEmpty := fun _ => false
  area := fun _ => 1
  pieces := fun _ => [[(0, 0)]]
  mgrsForward := fun _ acc => some (if acc = 0 then "5QKB" else "5QKB15")

/-- Engine identical to engPad except that the clipped intersection splits
into two polygonal pieces, as JSTS reports with a MultiPolygon result (the
sources handle that case explicitly when converting back to rings). -/
def engDup : GeoEngine Nat where
  latLonToUTM := fun _ _ p => some p
  utmToLatLon := fun _ _ e n => some (e, n)
  mkPolygon := fun _ => some 0
  intersect := fun _ _ => some 1
  buffer := fun g _ => some g
  isEmpty := fun _ => false
  area := fun _ => 1
  pieces := fun _ => [[(0, 0)], [(0, 1)]]
  mgrsForward := fun _ acc => some (if acc = 0 then "5QKB" else "5QKB15")

/-- Engine on which the raw intersection of the operands 0 and 0 throws a
topology exception while the intersection of the repaired operands (buffering
adds 9 to the geometry handle) succeeds with an above-threshold result. -/
def engRepair : GeoEngine Nat where
  latLonToUTM := fun _ _ _ => none
  utmToLatLon := fun _ _ _ _ => none
  mkPolygon := fun _ => none
  intersect := fun a b =>
    if a = 0 ∧ b = 0 then none
    else if a = 9 ∧ b = 9 then some 5
    else none
  buffer := fun g _ => some (g + 9)
  isEmpty := fun _ => false
  area := fun g => if g = 5 then 1 else 0
  pieces := fun _ => []
  mgrsForward := fun _ _ => none

/-- Engine on which the raw intersection of 0 and 0 succeeds but has zero
area, while intersecting the cell against the parent buffered outward by a
positive distance (handle 8) yields geometry 2 with area 1. -/
def engFallback : GeoEngine Nat where
  latLonToUTM := fun _ _ _ => none
  utmToLatLon := fun _ _ _ _ => none
  mkPolygon := fun _ => none
  intersect := fun a b =>
    if a = 0 ∧ b = 0 then some 1
    else if a = 8 ∧ b = 0 then some 2
    else none
  buffer := fun g d => if d = 0 then some g else some 8
  isEmpty := fun _ => false
  area := fun g => if g = 2 then 1 else 0
  pieces := fun _ => []
  mgrsForward := fun _ _ => none

/-- A 6 by 8 degree style demonstration boundary ring scaled down so that the
snapped projected bounding box holds exactly one candidate cell under engPad
and engDup. -/
def demoRing : List (List Pt) := [[(0, 0), (1, 0), (1, 1), (0, 1), (0, 0)]]

/-! ## Helper lemmas -/

lemma alLookup_alInsert_self {β : Type} (l : List (String × β)) (k : String) (v : β) :
    alLookup (alInsert l k v) k = some v := by
  simp [alInsert, alLookup, List.find?_cons_of_pos]

lemma alLookup_alErase_self {β : Type} (l : List (String × β)) (k : String) :
    alLookup (alErase l k) k = none := by
  simp only [alErase, alLookup, Option.map_eq_none', List.find?_eq_none, List.mem_filter]
  intro p hp
  simpa using hp.2

lemma belowThreshold_false {G : Type} (eng : GeoEngine G) (g : G)
    (h : belowThreshold eng g = false) :
    eng.isEmpty g = false ∧ epsArea ≤ eng.area g := by
  simp only [belowThreshold, Bool.or_eq_false_iff, decide_eq_false_iff_not, not_lt] at h
  exact h

lemma mem_featuresOfCell {G : Type} {eng : GeoEngine G} {o : Option G}
    {l : Option String} {pr : String} {b : Feature G}
    (h : b ∈ featuresOfCell eng o l pr) :
    ∃ i s, o = some i ∧ l = some s ∧ b.id = s := by
  cases o with
  | none => simp [featuresOfCell] at h
  | some i =>
    cases l with
    | none => simp [featuresOfCell] at h
    | some s =>
      simp only [featuresOfCell, List.mem_map] at h
      obtain ⟨r, _, rfl⟩ := h
      exact ⟨i, s, rfl, rfl, rfl⟩

lemma length_featuresOfCell_le {G : Type} (eng : GeoEngine G)
    (hp : ∀ g, (eng.pieces g).length ≤ 1) (o : Option G) (l : Option String)
    (pr : String) : (featuresOfCell eng o l pr).length ≤ 1 := by
  cases o with
  | none => simp [featuresOfCell]
  | some i =>
    cases l with
    | none => simp [featuresOfCell]
    | some s => simpa [featuresOfCell] using hp i

lemma id_of_mem_processCell100 {G : Type} {eng : GeoEngine G} {zone : Nat}
    {hemi : Hemi} {gzdGeom : G} {gzdName : String} {e n : ℚ} {b : Feature G}
    (h : b ∈ processCell100 eng zone hemi gzdGeom gzdName e n) :
    cellLabel100 eng zone hemi e n = some b.id := by
  unfold processCell100 at h
  split at h
  · exact absurd h (by simp)
  · split at h
    · exact absurd h (by simp)
    · obtain ⟨i, s, _, hl, hid⟩ := mem_featuresOfCell h
      rw [hid]
      exact hl

lemma id_of_mem_processCell10 {G : Type} {eng : GeoEngine G} {zone : Nat}
    {hemi : Hemi} {squareGeom : G} {gzdRef : String} {e n : ℚ} {b : Feature G}
    (h : b ∈ processCell10 eng zone hemi squareGeom gzdRef e n) :
    cellLabel10 eng zone hemi e n = some b.id := by
  unfold processCell10 at h
  split at h
  · exact absurd h (by simp)
  · split at h
    · exact absurd h (by simp)
    · obtain ⟨i, s, _, hl, hid⟩ := mem_featuresOfCell h
      rw [hid]
      exact hl

lemma length_processCell100_le {G : Type} (eng : GeoEngine G)
    (hp : ∀ g, (eng.pieces g).length ≤ 1) (zone : Nat) (hemi : Hemi)
    (gzdGeom : G) (gzdName : String) (e n : ℚ) :
    (processCell100 eng zone hemi gzdGeom gzdName e n).length ≤ 1 := by
  unfold processCell100
  split
  · simp
  · split
    · simp
    · exact length_featuresOfCell_le eng hp _ _ _

lemma length_processCell10_le {G : Type} (eng : GeoEngine G)
    (hp : ∀ g, (eng.pieces g).length ≤ 1) (zone : Nat) (hemi : Hemi)
    (squareGeom : G) (gzdRef : String) (e n : ℚ) :
    (processCell10 eng zone hemi squareGeom gzdRef e n).length ≤ 1 := by
  unfold processCell10
  split
  · simp
  · split
    · simp
    · exact length_featuresOfCell_le eng hp _ _ _

lemma intRange_nodup (a b : Int) : (intRange a b).Nodup := by
  unfold intRange
  apply List.Nodup.map
  · intro x y hxy
    have hxy2 : a + (x : Int) = a + (y : Int) := hxy
    omega
  · exact List.nodup_range _

lemma nodup_of_short {γ : Type} (l : List γ) (h : l.length ≤ 1) : l.Nodup := by
  rcases l with _ | ⟨x, _ | ⟨y, r⟩⟩
  · simp
  · simp
  · simp at h

lemma nodup_pairs {l1 l2 : List Int} (h1 : l1.Nodup) (h2 : l2.Nodup) :
    (l1.flatMap fun i => l2.map fun j => (i, j)).Nodup := by
  induction l1 with
  | nil => simp
  | cons a t ih =>
    rw [List.flatMap_cons, List.nodup_append]
    refine ⟨List.Nodup.map ?_ h2, ih (List.Nodup.of_cons h1), ?_⟩
    · intro x y hxy
      simpa using congrArg Prod.snd hxy
    · intro v hv hv'
      obtain ⟨j, hj, rfl⟩ := List.mem_map.mp hv
      obtain ⟨i, hi, hv2⟩ := List.mem_flatMap.mp hv'
      obtain ⟨j', hj', heq⟩ := List.mem_map.mp hv2
      have hai : i = a := congrArg Prod.fst heq
      subst hai
      exact (List.nodup_cons.mp h1).1 hi

lemma gridCells_nodup (aE bE aN bN : Int) : (gridCells aE bE aN bN).Nodup := by
  unfold gridCells
  exact nodup_pairs (intRange_nodup aE bE) (intRange_nodup aN bN)

lemma cellGrid100_nodup {G : Type} (eng : GeoEngine G) (zone : Nat) (hemi : Hemi)
    (coords : List (List Pt)) : (cellGrid100 eng zone hemi coords).Nodup := by
  unfold cellGrid100
  split
  · simp
  · exact gridCells_nodup _ _ _ _

lemma cellGrid10_nodup {G : Type} (eng : GeoEngine G) (zone : Nat) (hemi : Hemi)
    (coords : List (List Pt)) : (cellGrid10 eng zone hemi coords).Nodup := by
  unfold cellGrid10
  split
  · simp
  · exact gridCells_nodup _ _ _ _

lemma nodup_map_flatMap {α β : Type} (l : List α) (f : α → List β)
    (g : β → String) (h : α → String)
    (hlen : ∀ a, (f a).length ≤ 1)
    (hid : ∀ a b, b ∈ f a → g b = h a)
    (hl : l.Nodup)
    (hinj : ∀ a a', a ∈ l → a' ∈ l → a ≠ a' → f a ≠ [] → f a' ≠ [] → h a ≠ h a') :
    ((l.flatMap f).map g).Nodup := by
  induction l with
  | nil => simp
  | cons a t ih =>
    rw [List.flatMap_cons, List.map_append, List.nodup_append]
    refine ⟨?_, ih (List.Nodup.of_cons hl)
      (fun x y hx hy => hinj x y (List.mem_cons_of_mem a hx) (List.mem_cons_of_mem a hy)), ?_⟩
    · apply nodup_of_short
      rw [List.length_map]
      exact hlen a
    · intro v hv hv'
      obtain ⟨b, hb, rfl⟩ := List.mem_map.mp hv
      obtain ⟨b', hb2, hgb⟩ := List.mem_map.mp hv'
      obtain ⟨a', ha', hba'⟩ := List.mem_flatMap.mp hb2
      have e1 : g b = h a := hid a b hb
      have e2 : g b' = h a' := hid a' b' hba'
      have hne : a ≠ a' := by
        rintro rfl
        exact (List.nodup_cons.mp hl).1 ha'
      have heq : h a = h a' := by
        rw [← e1, ← hgb, e2]
      exact hinj a a' (List.mem_cons_self a t) (List.mem_cons_of_mem a ha')
        hne (List.ne_nil_of_mem hb) (List.ne_nil_of_mem hba') heq

lemma cellOutcome100_eq_some {G : Type} {eng : GeoEngine G} {p c i : G}
    (h : cellOutcome100 eng p c = some i) :
    eng.intersect p c = some i ∧ belowThreshold eng i = false := by
  unfold cellOutcome100 at h
  split at h
  · exact absurd h (by simp)
  · rename_i j heq
    by_cases hb : belowThreshold eng j = true
    · rw [if_pos hb] at h
      exact absurd h (by simp)
    · rw [if_neg hb] at h
      obtain rfl : j = i := by simpa using h
      exact ⟨heq, by simpa using hb⟩

lemma fallback10_cases {G : Type} (eng : GeoEngine G) (p c i0 : G) :
    fallback10 eng p c i0 = i0 ∨
    ∃ lp, eng.buffer p (1 / 10000) = some lp ∧
      eng.intersect lp c = some (fallback10 eng p c i0) := by
  unfold fallback10
  by_cases hs : belowThreshold eng i0 = true
  · rw [if_pos hs]
    split
    · exact Or.inl rfl
    · rename_i lp hlp
      split
      · exact Or.inl rfl
      · rename_i j hj
        exact Or.inr ⟨lp, hlp, hj⟩
  · rw [if_neg hs]
    exact Or.inl rfl

lemma cellOutcome10_eq_some {G : Type} {eng : GeoEngine G} {p c i : G}
    (h : cellOutcome10 eng p c = some i) :
    belowThreshold eng i = false ∧
    (clip10 eng p c = some i ∨
      ∃ lp, eng.buffer p (1 / 10000) = some lp ∧ eng.intersect lp c = some i) := by
  unfold cellOutcome10 at h
  split at h
  · exact absurd h (by simp)
  · rename_i i0 heq0
    by_cases hf : belowThreshold eng (fallback10 eng p c i0) = true
    · rw [if_pos hf] at h
      exact absurd h (by simp)
    · rw [if_neg hf] at h
      obtain rfl : fallback10 eng p c i0 = i := by simpa using h
      refine ⟨by simpa using hf, ?_⟩
      rcases fallback10_cases eng p c i0 with hcase | hcase
      · left
        rw [hcase]
        exact heq0
      · right
        exact hcase

/-! ## Claim theorems -/

set_option maxRecDepth 200000

/-- C1 counterexample: the claim that both generation passes implement the
repair-retry-once-then-discard policy (both operands repaired by
zero-distance buffering after a raw failure, retried exactly once, no other
fallback) is false on the code. On engRepair the 100 km pass discards the
cell without any repair where the policy would succeed; on engFallback the
10 km pass emits a geometry obtained from the extra enlarged-parent fallback
where the policy would discard. -/
theorem C1_counterexample :
    (¬ ∀ (eng : GeoEngine Nat) (p c : Nat),
        cellOutcome100 eng p c = cellOutcomeSpec eng p c)
    ∧ (¬ ∀ (eng : GeoEngine Nat) (p c : Nat),
        cellOutcome10 eng p c = cellOutcomeSpec eng p c) := by
  constructor
  · intro h
    exact absurd (h engRepair 0 0) (by decide)
  · intro h
    exact absurd (h engFallback 0 0) (by decide)

/-- C1 amended: repair is never applied before a raw attempt fails in either
pass, and on a raw failure the 10 km pass repairs both operands by
zero-distance buffering and retries exactly once; however the 100 km pass
discards the cell immediately on a raw failure with no repair at all, and the
10 km pass additionally falls back to intersecting the original cell against
a slightly enlarged parent when the intersection is empty or below the area
threshold. -/
theorem C1_repair_policy {G : Type} (eng : GeoEngine G) (p c : G) :
    (eng.intersect p c = none → cellOutcome100 eng p c = none)
    ∧ (∀ i, eng.intersect p c = some i → clip10 eng p c = some i)
    ∧ (∀ rp rc, eng.intersect p c = none → eng.buffer p 0 = some rp →
        eng.buffer c 0 = some rc → clip10 eng p c = eng.intersect rp rc)
    ∧ (∀ i0 lp j, clip10 eng p c = some i0 → belowThreshold eng i0 = true →
        eng.buffer p (1 / 10000) = some lp → eng.intersect lp c = some j →
        belowThreshold eng j = false → cellOutcome10 eng p c = some j) := by
  refine ⟨fun h => ?_, fun i hi => ?_, fun rp rc h h1 h2 => ?_,
    fun i0 lp j h0 hsmall hb hi hj => ?_⟩
  · simp [cellOutcome100, h]
  · simp [clip10, hi]
  · simp [clip10, h, h1, h2]
  · have hf : fallback10 eng p c i0 = j := by
      unfold fallback10
      rw [if_pos hsmall, hb]
      simp [hi]
    simp [cellOutcome10, h0, hf, hj]

/-- C1 witness: the amended policy evaluated at concrete engines: on
engRepair a raw failure makes the 100 km pass discard while the 10 km
attempt equals the repaired intersection, and on engFallback the 10 km pass
emits the enlarged-parent geometry 2. -/
theorem C1_repair_policy_witness :
    cellOutcome100 engRepair 0 0 = none
    ∧ clip10 engRepair 0 0 = engRepair.intersect 9 9
    ∧ cellOutcome10 engFallback 0 0 = some 2 :=
  ⟨(C1_repair_policy engRepair 0 0).1 (by decide),
   (C1_repair_policy engRepair 0 0).2.2.1 9 9 (by decide) (by decide) (by decide),
   (C1_repair_policy engFallback 0 0).2.2.2 1 8 2 (by decide) (by decide)
     (by decide) (by decide) (by decide)⟩

/-- C2 counterexample: the claim that the northernmost band suppresses
exactly two zones (which would leave 58 features in band X) and widens
exactly two zones to a 12 degree span is false: band X of the generated
boundary set has 56 features and three 12 degree wide features. -/
theorem C2_counterexample :
    ¬ (((generateGZDGeoJSON.filter fun f => f.band = 'X').length = 58)
       ∧ ((generateGZDGeoJSON.filter fun f => f.band = 'X' ∧ featWidth f = 12).length = 2)) := by
  decide

/-- C2 amended: in the northernmost band the generator suppresses four zones
(31, 32, 34 and 36 have no feature) and widens three (exactly one feature
each for 33, 35 and 37, each spanning 12 degrees of longitude); it never
emits a feature for a suppressed pair, and in band V it suppresses 32V and
emits exactly one widened 31V feature spanning 9 degrees. -/
theorem C2_band_exceptions :
    ((generateGZDGeoJSON.filter fun f => f.band = 'X').length = 56)
    ∧ ((generateGZDGeoJSON.filter fun f => f.band = 'X' ∧ featWidth f = 12).map
        (fun f => f.zone) = [33, 35, 37])
    ∧ (generateGZDGeoJSON.all fun f =>
        !(f.band = 'X' ∧ (f.zone = 31 ∨ f.zone = 32 ∨ f.zone = 34 ∨ f.zone = 36)))
    ∧ ((generateGZDGeoJSON.filter fun f => f.band = 'X' ∧ f.zone = 33).length = 1)
    ∧ ((generateGZDGeoJSON.filter fun f => f.band = 'X' ∧ f.zone = 35).length = 1)
    ∧ ((generateGZDGeoJSON.filter fun f => f.band = 'X' ∧ f.zone = 37).length = 1)
    ∧ ((generateGZDGeoJSON.filter fun f => f.band = 'V' ∧ f.zone = 32).length = 0)
    ∧ ((generateGZDGeoJSON.filter fun f => f.band = 'V' ∧ f.zone = 31).map featWidth = [9]) := by
  decide

/-- C3 code bug: the 100 km generator uses the encoder output verbatim as the
feature id with no zero padding, so a single digit zone such as 5 yields ids
beginning 5Q rather than the claimed 05Q, while the 10 km generator does
apply the padZone normalization; evaluated on engPad, whose encoder follows
the documented unpadded output format of the external mgrs package. -/
theorem C3_bug_eval :
    ((generate100kmSquaresForGZD engPad 5 "Q" Hemi.N demoRing).map Feature.id = ["5QKB"])
    ∧ ((generate10kmGridForSquare engPad 5 Hemi.N demoRing "5QKB").map Feature.id = ["05QKB15"])
    ∧ padZone "5QKB" = "05QKB"
    ∧ "5QKB".data.take 2 ≠ ['0', '5'] := by
  decide

/-- C4 counterexample: the claim that an execution context error for a key is
routed to the error callback and clears pending state for both request kinds
is false for the 100 km kind: the worker failure message for a 100 km
request carries no key and the pool handler ignores it, leaving the stored
callback in place. -/
theorem C4_counterexample :
    ¬ (∀ (s : PoolState) (k err : String) (cb : Nat),
        alLookup s.cb100 k = some cb →
        alLookup (handleMessage s (workerFailure100 err)).1.cb100 k = none) := by
  intro h
  have h2 := h ⟨[("12T", 7)], [], [], 0⟩ "12T" "boom" 7 (by decide)
  exact absurd h2 (by decide)

/-- C4 amended: error routing works as claimed for the 10 km kind only. A
10 km worker failure removes both stored callbacks for the key, invokes the
optional error callback, and the controller error callback removes the
pending mark, so the key can be retried; a 100 km worker failure is an
untagged message the pool ignores: state is unchanged and no callback is
invoked. -/
theorem C4_error_routing (s : PoolState) (m : MgrState) (k err : String) (cb : Nat) :
    alLookup (handleMessage s (workerFailure10 k err)).1.cb10 k = none
    ∧ alLookup (handleMessage s (workerFailure10 k err)).1.errCb10 k = none
    ∧ (alLookup s.errCb10 k = some cb →
        (handleMessage s (workerFailure10 k err)).2 = [Invocation.invokeErr cb err])
    ∧ k ∉ (onError10 m k).pending100kmSquares
    ∧ (handleMessage s (workerFailure100 err)).1 = s
    ∧ (handleMessage s (workerFailure100 err)).2 = [] := by
  refine ⟨?_, ?_, fun h => ?_, ?_, rfl, rfl⟩
  · simp [handleMessage, workerFailure10, alLookup_alErase_self]
  · simp [handleMessage, workerFailure10, alLookup_alErase_self]
  · simp [handleMessage, workerFailure10, h]
  · simp [onError10, List.mem_filter]

/-- C4 witness: the amended routing evaluated at a concrete pool state
holding callbacks for the key 05QKB and a controller state with the key
pending. -/
theorem C4_error_routing_witness :
    alLookup (handleMessage ⟨[], [("05QKB", 3)], [("05QKB", 9)], 2⟩
      (workerFailure10 "05QKB" "boom")).1.cb10 "05QKB" = none
    ∧ (handleMessage ⟨[], [("05QKB", 3)], [("05QKB", 9)], 2⟩
        (workerFailure10 "05QKB" "boom")).2 = [Invocation.invokeErr 9 "boom"]
    ∧ "05QKB" ∉ (onError10 ⟨[], ["05QKB"]⟩ "05QKB").pending100kmSquares :=
  ⟨(C4_error_routing ⟨[], [("05QKB", 3)], [("05QKB", 9)], 2⟩ ⟨[], ["05QKB"]⟩
      "05QKB" "boom" 9).1,
   (C4_error_routing ⟨[], [("05QKB", 3)], [("05QKB", 9)], 2⟩ ⟨[], ["05QKB"]⟩
      "05QKB" "boom" 9).2.2.1 (by decide),
   (C4_error_routing ⟨[], [("05QKB", 3)], [("05QKB", 9)], 2⟩ ⟨[], ["05QKB"]⟩
      "05QKB" "boom" 9).2.2.2.1⟩

/-- C5 code bug: the controller marks a key pending before dispatch and a
repeat pass never dispatches again, but the claimed exactly-one-dispatch
guarantee fails for reachable keys: the 100 km generator emits unpadded ids
such as 5QKB in single digit zones, the 10 km dispatch path requires a two
digit zone prefix, and such a key is marked pending yet never dispatched, so
N rapid passes produce zero dispatches for it (and one dispatch for padded
keys and for 100 km zone keys). -/
theorem C5_bug_eval :
    ((generate100kmSquaresForGZD engPad 5 "Q" Hemi.N demoRing).map Feature.id = ["5QKB"])
    ∧ matches2DigitZone "5QKB" = false
    ∧ passes10 "5QKB" 3 [] = 0
    ∧ (step10 false [] "5QKB").1 = ["5QKB"]
    ∧ passes10 "05QKB" 3 [] = 1
    ∧ passes100 "5Q" 3 [] = 1 := by
  decide

/-- C6: after the explicit clear-all operation (the store clearAll of
mgrsStore.ts together with the controller clearPending of viewportManager.ts,
the two cited fragments), every cache lookup is empty, nothing remains
surfaced, no key is marked pending (including keys pending at the time of
the clear), and the 100 km dispatch guard fires for any key on the next
pass. -/
theorem C6_clear_all_resets {α : Type} (s : StoreState α) (m : MgrState) (k : String) :
    getSquares100km (clearAll s) k = none
    ∧ getGrids10km (clearAll s) k = none
    ∧ (clearAll s).visible100kmSquares = []
    ∧ (clearAll s).visible10kmGrids = []
    ∧ k ∉ (clearPending m).pendingGZDs
    ∧ k ∉ (clearPending m).pending100kmSquares
    ∧ (step100 (getSquares100km (clearAll s) k).isSome (clearPending m).pendingGZDs k).2 = true := by
  refine ⟨rfl, rfl, rfl, rfl, ?_, ?_, rfl⟩
  · simp [clearPending]
  · simp [clearPending]

/-- C7 counterexample: the claim that no two features of one generation pass
share an id is false: on engDup, whose intersection result splits into two
polygonal pieces, a single candidate cell emits one feature per piece and
both features carry the same id. -/
theorem C7_counterexample :
    ¬ (∀ (eng : GeoEngine Nat) (zone : Nat) (band : String) (hemi : Hemi)
        (coords : List (List Pt)) (parentId : String),
        ((generate100kmSquaresForGZD eng zone band hemi coords).map Feature.id).Nodup
        ∧ ((generate10kmGridForSquare eng zone hemi coords parentId).map Feature.id).Nodup) := by
  intro h
  exact absurd (h engDup 5 "Q" Hemi.N demoRing "5QKB").1 (by decide)

/-- C7 amended: within one parent boundary output at a fixed precision, all
features emitted for one candidate cell share that cell center label, and
ids are unique provided every clipped intersection is a single polygonal
piece and the encoder assigns distinct labels to distinct candidate cells;
a multi-piece intersection instead yields several features sharing one id. -/
theorem C7_id_uniqueness {G : Type} (eng : GeoEngine G) (zone : Nat) (band : String)
    (hemi : Hemi) (coords : List (List Pt)) (parentId : String)
    (hp : ∀ g, (eng.pieces g).length ≤ 1)
    (h100 : ∀ c ∈ cellGrid100 eng zone hemi coords,
      ∀ c' ∈ cellGrid100 eng zone hemi coords, c ≠ c' →
        cellLabel100 eng zone hemi (cellOrigin 100000 c).1 (cellOrigin 100000 c).2 = none
        ∨ cellLabel100 eng zone hemi (cellOrigin 100000 c').1 (cellOrigin 100000 c').2 = none
        ∨ cellLabel100 eng zone hemi (cellOrigin 100000 c).1 (cellOrigin 100000 c).2 ≠
            cellLabel100 eng zone hemi (cellOrigin 100000 c').1 (cellOrigin 100000 c').2)
    (h10 : ∀ c ∈ cellGrid10 eng zone hemi coords,
      ∀ c' ∈ cellGrid10 eng zone hemi coords, c ≠ c' →
        cellLabel10 eng zone hemi (cellOrigin 10000 c).1 (cellOrigin 10000 c).2 = none
        ∨ cellLabel10 eng zone hemi (cellOrigin 10000 c').1 (cellOrigin 10000 c').2 = none
        ∨ cellLabel10 eng zone hemi (cellOrigin 10000 c).1 (cellOrigin 10000 c).2 ≠
            cellLabel10 eng zone hemi (cellOrigin 10000 c').1 (cellOrigin 10000 c').2) :
    ((generate100kmSquaresForGZD eng zone band hemi coords).map Feature.id).Nodup
    ∧ ((generate10kmGridForSquare eng zone hemi coords parentId).map Feature.id).Nodup := by
  constructor
  · simp only [generate100kmSquaresForGZD]
    split
    · simp
    · apply nodup_map_flatMap _ _ _
        (fun c => (cellLabel100 eng zone hemi (cellOrigin 100000 c).1 (cellOrigin 100000 c).2).getD "")
      · exact fun c => length_processCell100_le eng hp _ _ _ _ _ _
      · intro c b hb
        dsimp only
        rw [id_of_mem_processCell100 hb]
        rfl
      · exact cellGrid100_nodup eng zone hemi coords
      · intro c c' hc hc' hne hf hf'
        obtain ⟨b, hb⟩ := List.exists_mem_of_ne_nil _ hf
        obtain ⟨b', hb'⟩ := List.exists_mem_of_ne_nil _ hf'
        have l1 := id_of_mem_processCell100 hb
        have l2 := id_of_mem_processCell100 hb'
        rcases h100 c hc c' hc' hne with h0 | h0 | h0
        · rw [h0] at l1
          exact absurd l1 (by simp)
        · rw [h0] at l2
          exact absurd l2 (by simp)
        · intro heq
          apply h0
          rw [l1, l2] at heq
          simp only [Option.getD_some] at heq
          rw [l1, l2, heq]
  · simp only [generate10kmGridForSquare]
    split
    · simp
    · apply nodup_map_flatMap _ _ _
        (fun c => (cellLabel10 eng zone hemi (cellOrigin 10000 c).1 (cellOrigin 10000 c).2).getD "")
      · exact fun c => length_processCell10_le eng hp _ _ _ _ _ _
      · intro c b hb
        dsimp only
        rw [id_of_mem_processCell10 hb]
        rfl
      · exact cellGrid10_nodup eng zone hemi coords
      · intro c c' hc hc' hne hf hf'
        obtain ⟨b, hb⟩ := List.exists_mem_of_ne_nil _ hf
        obtain ⟨b', hb'⟩ := List.exists_mem_of_ne_nil _ hf'
        have l1 := id_of_mem_processCell10 hb
        have l2 := id_of_mem_processCell10 hb'
        rcases h10 c hc c' hc' hne with h0 | h0 | h0
        · rw [h0] at l1
          exact absurd l1 (by simp)
        · rw [h0] at l2
          exact absurd l2 (by simp)
        · intro heq
          apply h0
          rw [l1, l2] at heq
          simp only [Option.getD_some] at heq
          rw [l1, l2, heq]

/-- C7 witness: on engPad every intersection has a single piece and the
demonstration boundary holds one candidate cell, so both outputs have
pairwise distinct ids. -/
theorem C7_id_uniqueness_witness :
    ((generate100kmSquaresForGZD engPad 5 "Q" Hemi.N demoRing).map Feature.id).Nodup
    ∧ ((generate10kmGridForSquare engPad 5 Hemi.N demoRing "5QKB").map Feature.id).Nodup := by
  apply C7_id_uniqueness engPad 5 "Q" Hemi.N demoRing "5QKB"
  · intro g
    show (1 : Nat) ≤ 1
    decide
  · decide
  · decide

/-- C8 counterexample: the claim that a candidate cell whose intersection
with the parent boundary is empty or below the area threshold is always
discarded is false: on engFallback the raw intersection has zero area, yet
the 10 km pass emits geometry 2 obtained from the enlarged parent. -/
theorem C8_counterexample :
    ¬ (∀ (eng : GeoEngine Nat) (p c i : Nat),
        clip10 eng p c = some i → belowThreshold eng i = true →
        cellOutcome10 eng p c = none) := by
  intro h
  exact absurd (h engFallback 0 0 1 (by decide) (by decide)) (by decide)

/-- C8 amended: every emitted 100 km cell geometry is the raw intersection
with the parent and is non-empty with area at least the 1e-8 threshold; an
emitted 10 km cell geometry is likewise non-empty and above the threshold,
but it is either the (possibly repaired) parent intersection or the
intersection with a slightly enlarged parent, so a cell whose true parent
overlap is below the threshold can still be emitted. -/
theorem C8_area_threshold {G : Type} (eng : GeoEngine G) (p c i : G) :
    (cellOutcome100 eng p c = some i →
      eng.intersect p c = some i ∧ eng.isEmpty i = false ∧ epsArea ≤ eng.area i)
    ∧ (cellOutcome10 eng p c = some i →
      (eng.isEmpty i = false ∧ epsArea ≤ eng.area i)
      ∧ (clip10 eng p c = some i ∨
          ∃ lp, eng.buffer p (1 / 10000) = some lp ∧ eng.intersect lp c = some i)) := by
  constructor
  · intro h
    obtain ⟨h1, h2⟩ := cellOutcome100_eq_some h
    obtain ⟨h3, h4⟩ := belowThreshold_false eng i h2
    exact ⟨h1, h3, h4⟩
  · intro h
    obtain ⟨h1, h2⟩ := cellOutcome10_eq_some h
    exact ⟨belowThreshold_false eng i h1, h2⟩

/-- C8 witness: the amended statement evaluated on engFallback, where the
emitted geometry 2 is above the threshold and arises from the enlarged
parent intersection. -/
theorem C8_area_threshold_witness :
    (engFallback.isEmpty 2 = false ∧ epsArea ≤ engFallback.area 2)
    ∧ (clip10 engFallback 0 0 = some 2 ∨
        ∃ lp, engFallback.buffer 0 (1 / 10000) = some lp ∧
          engFallback.intersect lp 0 = some 2) :=
  (C8_area_threshold engFallback 0 0 2).2 (by decide)

/-- C9: the controller zoom gating honors the zoom-to-precision contract:
below zoom 5 neither update runs, in [5, 8) only the 100 km update runs, and
from zoom 8 on both run. -/
theorem C9_zoom_contract (z : ℚ) :
    (z < 5 → onViewportChangeRuns (some z) = (false, false))
    ∧ (5 ≤ z → z < 8 → onViewportChangeRuns (some z) = (true, false))
    ∧ (8 ≤ z → onViewportChangeRuns (some z) = (true, true)) := by
  refine ⟨fun h => ?_, fun h1 h2 => ?_, fun h => ?_⟩ <;>
    simp only [onViewportChangeRuns, Option.getD_some, Prod.mk.injEq,
      decide_eq_false_iff_not, decide_eq_true_eq, not_le]
  · exact ⟨h, by linarith⟩
  · exact ⟨h1, h2⟩
  · exact ⟨by linarith, h⟩

/-- C9 witness: the contract evaluated at zooms 4, 6 and 9. -/
theorem C9_zoom_contract_witness :
    onViewportChangeRuns (some 4) = (false, false)
    ∧ onViewportChangeRuns (some 6) = (true, false)
    ∧ onViewportChangeRuns (some 9) = (true, true) :=
  ⟨(C9_zoom_contract 4).1 (by norm_num),
   (C9_zoom_contract 6).2.1 (by norm_num) (by norm_num),
   (C9_zoom_contract 9).2.2 (by norm_num)⟩

/-- C10: registering a second 100 km request for a key already holding a
pending callback silently replaces the stored callback and posts a second
worker message; the first arriving result invokes only the newer callback
and removes it, the second arriving result invokes nothing, and the earlier
callback is never invoked. -/
theorem C10_callback_replaced (s : PoolState) (k : String) (cb1 cb2 : Nat) :
    (requestGenerate100km (requestGenerate100km s k cb1) k cb2).posted = s.posted + 2
    ∧ alLookup (requestGenerate100km (requestGenerate100km s k cb1) k cb2).cb100 k = some cb2
    ∧ (handleMessage (requestGenerate100km (requestGenerate100km s k cb1) k cb2)
        (PoolMsg.gen100Result k)).2 = [Invocation.invoke100 cb2]
    ∧ (handleMessage (handleMessage (requestGenerate100km (requestGenerate100km s k cb1) k cb2)
        (PoolMsg.gen100Result k)).1 (PoolMsg.gen100Result k)).2 = []
    ∧ (cb1 ≠ cb2 →
        Invocation.invoke100 cb1 ∉
          (handleMessage (requestGenerate100km (requestGenerate100km s k cb1) k cb2)
            (PoolMsg.gen100Result k)).2) := by
  have h1 : alLookup (alInsert (alInsert s.cb100 k cb1) k cb2) k = some cb2 :=
    alLookup_alInsert_self _ _ _
  have h2 : (handleMessage (requestGenerate100km (requestGenerate100km s k cb1) k cb2)
      (PoolMsg.gen100Result k)).2 = [Invocation.invoke100 cb2] := by
    simp [handleMessage, requestGenerate100km, h1]
  refine ⟨rfl, h1, h2, ?_, fun hne => ?_⟩
  · simp [handleMessage, requestGenerate100km, h1, alLookup_alErase_self]
  · rw [h2]
    simp [Invocation.invoke100.injEq]
    exact hne

/-- C10 witness: the replacement behavior evaluated at a concrete pool with
key 18T and callbacks 1 and 2. -/
theorem C10_callback_replaced_witness :
    (requestGenerate100km (requestGenerate100km ⟨[], [], [], 0⟩ "18T" 1) "18T" 2).posted = 2
    ∧ (handleMessage (requestGenerate100km (requestGenerate100km ⟨[], [], [], 0⟩ "18T" 1) "18T" 2)
        (PoolMsg.gen100Result "18T")).2 = [Invocation.invoke100 2]
    ∧ Invocation.invoke100 1 ∉
        (handleMessage (requestGenerate100km (requestGenerate100km ⟨[], [], [], 0⟩ "18T" 1) "18T" 2)
          (PoolMsg.gen100Result "18T")).2 :=
  ⟨(C10_callback_replaced ⟨[], [], [], 0⟩ "18T" 1 2).1,
   (C10_callback_replaced ⟨[], [], [], 0⟩ "18T" 1 2).2.2.1,
   (C10_callback_replaced ⟨[], [], [], 0⟩ "18T" 1 2).2.2.2.2 (by decide)⟩

end MGRSGrid
